import Mathlib

/-!
Shallow embedding of the WCS 1.1 request builders of `mapwcs11.c`
(MapServer): format-list resolution, CRS fallback resolution, the
`GetCapabilities` and `DescribeCoverage` document builders, and the
`GetCoverage` multipart response wrapper.  External collaborators
(metadata lookup, layer store, projection resolver, coverage-metadata
resolver, libxml2) are modelled as explicit data carried by the layer
and map records, faithful to how the C file consumes them.
-/

namespace MapWcs11

/-- Return status of MapServer routines (`MS_SUCCESS` / `MS_FAILURE`). -/
inductive MsStatus : Type where
  | success : MsStatus
  | failure : MsStatus
deriving DecidableEq, Repr

/-- ASCII lower-casing of one character, as C `tolower` does in the C
locale. -/
def lowerChar (c : Char) : Char :=
  if c.toNat ≥ 65 ∧ c.toNat ≤ 90 then Char.ofNat (c.toNat + 32) else c

/-- Case-insensitive string equality, modelling C `strcasecmp(a,b) == 0`
for the ASCII data exercised here. -/
def strcaseeq (a b : String) : Bool :=
  a.data.map lowerChar == b.data.map lowerChar

/-- Renderer category of an output format: the C switch keeps
`MS_RENDER_WITH_GD`, `MS_RENDER_WITH_AGG` and `MS_RENDER_WITH_RAWDATA`
and treats every other renderer as not WCS compatible. -/
inductive RendererKind : Type where
  | gd : RendererKind
  | agg : RendererKind
  | rawdata : RendererKind
  | other : RendererKind
deriving DecidableEq, Repr

/-- An `outputFormatObj`: name, renderer category and MIME type
(`mimetype` may be NULL in C, hence `Option`). -/
structure OutputFormat : Type where
  name : String
  renderer : RendererKind
  mimetype : Option String
deriving DecidableEq, Repr

/-- Whether the renderer category is in the raster-capable allow-list of
`msWCSGetFormatsList11`. -/
def rasterCapable : RendererKind → Bool
  | RendererKind.gd => true
  | RendererKind.agg => true
  | RendererKind.rawdata => true
  | RendererKind.other => false

/-- A `coverageMetadataObj` as consumed by this file: pixel sizes, the
native and WGS84 extents, the six geotransform coefficients and the
native CRS URN. -/
structure CoverageMetadata : Type where
  xsize : Int
  ysize : Int
  extMinx : ℚ
  extMiny : ℚ
  extMaxx : ℚ
  extMaxy : ℚ
  llMinx : ℚ
  llMiny : ℚ
  llMaxx : ℚ
  llMaxy : ℚ
  gt0 : ℚ
  gt1 : ℚ
  gt2 : ℚ
  gt3 : ℚ
  gt4 : ℚ
  gt5 : ℚ
  srsUrn : String
deriving DecidableEq, Repr

/-- A `layerObj` as consumed by this file.  `metadata` models the COM
namespaced metadata dictionary; `projUrn` models the result of the
external `msOWSGetProjURN` on the layer projection plus layer metadata
(`none` = NULL); `wcsSupported` models the external
`msWCSIsLayerSupported` predicate; `hasMapRef` models
`msCheckParentPointer(layer->map)`; `cm` models the result of the
external `msWCSGetCoverageMetadata` (`none` = `MS_FAILURE`). -/
structure LayerObj : Type where
  name : String
  metadata : List (String × String)
  projUrn : Option String
  wcsSupported : Bool
  hasMapRef : Bool
  cm : Option CoverageMetadata
deriving DecidableEq, Repr

/-- A `mapObj` as consumed by this file.  `projUrn` models
`msOWSGetProjURN` on the map projection plus web metadata;
`onlineResourceEncoded` models the combined result of
`msOWSGetOnlineResource` followed by `msEncodeHTMLEntities`
(`none` when either returns NULL). -/
structure MapObj : Type where
  layers : List LayerObj
  outputformats : List OutputFormat
  projUrn : Option String
  onlineResourceEncoded : Option String
deriving DecidableEq, Repr

/-- A `wcsParamsObj` as consumed by this file: the protocol version and
the requested coverage identifier list (`none` models a NULL
`params->coverages` string list). -/
structure WcsParams : Type where
  version : String
  coverages : Option (List String)
deriving DecidableEq, Repr

/-- `msOWSLookupMetadata` on a metadata dictionary (COM namespace is
already folded into the key set of the model). -/
def lookupMeta (md : List (String × String)) (key : String) : Option String :=
  (md.find? (fun kv => kv.fst = key)).map (fun kv => kv.snd)

/-- Splitting a list of characters on a delimiter (auxiliary). -/
def splitChAux (d : Char) : List Char → List Char → List (List Char)
  | [], cur => [cur.reverse]
  | c :: rest, cur =>
    if c = d then cur.reverse :: splitChAux d rest []
    else splitChAux d rest (c :: cur)

/-- Split a string on a delimiter character, dropping empty tokens:
models `CSLTokenizeStringComplex(s, d, FALSE, FALSE)` (and
`msStringSplit` for the delimiters exercised here). -/
def splitCh (d : Char) (s : String) : List String :=
  ((splitChAux d s.data []).filter (fun l => l ≠ [])).map (fun l => String.mk l)

/-- The growing comma-joined string built by the realloc/strcat loops of
the C file (used for the identifier list and the format list). -/
def commaJoin (items : List String) : String :=
  items.foldl (fun acc s => (if acc.length > 0 then acc ++ "," else acc) ++ s) ("")

/-- The case-insensitive name lookup of `msWCSGetFormatsList11`: the
inner `for format_i` loop returns the first `outputFormatObj` whose
name matches the token case-insensitively, if any. -/
def findFormatByName (fmts : List OutputFormat) (tok : String) : Option OutputFormat :=
  fmts.find? (fun f => strcaseeq f.name tok)

/-- The token-resolution loop of `msWCSGetFormatsList11`: for each
token, look up the descriptor case-insensitively (skip if absent), skip
if its MIME type is NULL or empty, skip if the MIME type duplicates an
already-kept one case-insensitively, else append it. -/
def formatsLoop (fmts : List OutputFormat) : List String → List String → List String
  | [], acc => acc
  | tok :: rest, acc =>
    match findFormatByName fmts tok with
    | none => formatsLoop fmts rest acc
    | some f =>
      match f.mimetype with
      | none => formatsLoop fmts rest acc
      | some m =>
        if m.length = 0 then formatsLoop fmts rest acc
        else if acc.any (fun x => strcaseeq m x) then formatsLoop fmts rest acc
        else formatsLoop fmts rest (acc ++ [m])

/-- The token list `msWCSGetFormatsList11` starts from: with a layer,
the space-split of the layer "formats" metadata (default "GTiff");
without one, the names of every raster-capable configured format. -/
def formatsTokens (m : MapObj) (layer : Option LayerObj) : List String :=
  match layer with
  | some l => splitCh ' ' ((lookupMeta l.metadata ("formats")).getD ("GTiff"))
  | none => (m.outputformats.filter (fun f => rasterCapable f.renderer)).map
      (fun f => f.name)

/-- `msWCSGetFormatsList11` as a list of MIME types (the C function
returns the `commaJoin` of this list). -/
def msWCSGetFormatsList11 (m : MapObj) (layer : Option LayerObj) : List String :=
  formatsLoop m.outputformats (formatsTokens m layer) []

/-- The candidate MIME sequence of a token list: each token mapped to
the MIME type of its case-insensitively matching descriptor, dropping
tokens with no match or with a NULL/empty MIME type (before any
deduplication happens). -/
def fmtCandidates (fmts : List OutputFormat) (tokens : List String) : List String :=
  tokens.filterMap (fun tok =>
    match findFormatByName fmts tok with
    | none => none
    | some f =>
      match f.mimetype with
      | none => none
      | some m => if m.length = 0 then none else some m)

/-- The pure dedup loop over an already-resolved MIME list. -/
def dedupLoop : List String → List String → List String
  | [], acc => acc
  | m :: rest, acc =>
    if acc.any (fun x => strcaseeq m x) then dedupLoop rest acc
    else dedupLoop rest (acc ++ [m])

/-- Modelled from the spec: first-seen case-insensitive deduplication,
keeping each MIME type in its original position and discarding every
later case-insensitive duplicate. -/
def dedupCI : List String → List String
  | [] => []
  | m :: rest => m :: dedupCI (rest.filter (fun x => !(strcaseeq x m)))
termination_by l => l.length
decreasing_by
  simp only [List.length_cons]
  exact Nat.lt_succ_of_le (List.length_filter_le _ _)

/-- An XML element: namespace declarations carried on the node (root
only), the namespace prefix the element itself uses, tag, attributes,
optional text content, children.  Models the libxml2 tree as built by
`xmlNewNode` / `xmlNewNs` / `xmlNewChild` / `xmlNewProp`. -/
inductive XElem : Type where
  | node (nsDecls : List (Option String × String)) (nsPfx : Option String)
      (tag : String) (attrs : List (String × String))
      (text : Option String) (children : List XElem) : XElem

/-- Tag of an element. -/
def XElem.tag : XElem → String
  | XElem.node _ _ t _ _ _ => t

/-- Children of an element. -/
def XElem.children : XElem → List XElem
  | XElem.node _ _ _ _ _ ch => ch

/-- Attributes of an element. -/
def XElem.attrs : XElem → List (String × String)
  | XElem.node _ _ _ a _ _ => a

/-- Text content of an element. -/
def XElem.text : XElem → Option String
  | XElem.node _ _ _ _ tx _ => tx

/-- Namespace declarations of an element. -/
def XElem.nsDecls : XElem → List (Option String × String)
  | XElem.node ds _ _ _ _ _ => ds

/-- A childless element with optional text (`xmlNewChild(parent, ns,
tag, value)`). -/
def leaf (pfx : Option String) (tag : String) (txt : Option String) : XElem :=
  XElem.node [] pfx tag [] txt []

/-- Modelled from the spec: the standard URI bound to the `ows`
namespace prefix (`MS_OWSCOMMON_OWS_NAMESPACE_URI`, defined outside
this file). -/
def owsNsUri : String := "http://www.opengis.net/ows/1.1"

/-- Modelled from the spec: the standard URI bound to the `xlink`
namespace prefix (`MS_OWSCOMMON_W3C_XLINK_NAMESPACE_URI`). -/
def xlinkNsUri : String := "http://www.w3.org/1999/xlink"

/-- Modelled from the spec: the standard URI bound to the `xsi`
namespace prefix (`MS_OWSCOMMON_W3C_XSI_NAMESPACE_URI`). -/
def xsiNsUri : String := "http://www.w3.org/2001/XMLSchema-instance"

/-- Modelled from the spec: the standard URI bound to the `ogc`
namespace prefix (`MS_OWSCOMMON_OGC_NAMESPACE_URI`). -/
def ogcNsUri : String := "http://www.opengis.net/ogc"

/-- The default WCS 1.1 namespace URI (literal in the source). -/
def wcsNsUri : String := "http://www.opengis.net/wcs/1.1"

/-- The five namespace bindings placed on every generated root element:
default WCS 1.1, then `ows`, `xlink`, `xsi`, `ogc`, in source order. -/
def fiveNs : List (Option String × String) :=
  [(none, wcsNsUri),
   (some ("ows"), owsNsUri),
   (some ("xlink"), xlinkNsUri),
   (some ("xsi"), xsiNsUri),
   (some ("ogc"), ogcNsUri)]

/-- Rendering of a C double with format `%.15g`, modelled exactly for
the integer-valued coordinates exercised by the geotransform claims
(an integral double prints with no decimal point under `%g`); a
non-integral rational keeps its exact rational rendering. -/
def fmtG (q : ℚ) : String :=
  if q.den = 1 then toString q.num else toString q

/-- The `"%.15g %.15g"` pair rendering used for GridOrigin and
GridOffsets. -/
def fmtPair (p : ℚ × ℚ) : String :=
  fmtG p.1 ++ " " ++ fmtG p.2

/-- The GridOrigin pair computed by the source:
`(gt0 + gt1/2 + gt2/2, gt3 + gt4/2 + gt5/2)`. -/
def gridOriginPair (cm : CoverageMetadata) : ℚ × ℚ :=
  (cm.gt0 + cm.gt1 / 2 + cm.gt2 / 2, cm.gt3 + cm.gt4 / 2 + cm.gt5 / 2)

/-- The GridOffsets pair computed by the source: `(gt1, gt5)`. -/
def gridOffsetsPair (cm : CoverageMetadata) : ℚ × ℚ :=
  (cm.gt1, cm.gt5)

/-- The `GridCRS` block emitted inside a CoverageDescription. -/
def gridCRSNode (cm : CoverageMetadata) : XElem :=
  XElem.node [] none ("GridCRS") [] none
    [leaf none ("GridBaseCRS") (some cm.srsUrn),
     leaf none ("GridType") (some ("urn:ogc:def:method:WCS:1.1:2dSimpleGrid")),
     leaf none ("GridOrigin") (some (fmtPair (gridOriginPair cm))),
     leaf none ("GridOffsets") (some (fmtPair (gridOffsetsPair cm))),
     leaf none ("GridCS") (some ("urn:ogc:def:cs:OGC:0.0:Grid2dSquareCS"))]

/-- Modelled from the spec: the external OWSCommonBuilder bounding-box
fragment (`msOWSCommonBoundingBox`, defined outside this file). -/
def msOWSCommonBoundingBox (crs : String) (minx miny maxx maxy : ℚ) : XElem :=
  XElem.node [] (some ("ows")) ("BoundingBox") [(("crs"), crs)]
    (some (fmtG minx ++ " " ++ fmtG miny ++ " " ++ fmtG maxx ++ " " ++ fmtG maxy)) []

/-- Modelled from the spec: the external OWSCommonBuilder WGS84
bounding-box fragment (`msOWSCommonWGS84BoundingBox`). -/
def msOWSCommonWGS84BoundingBox (minx miny maxx maxy : ℚ) : XElem :=
  XElem.node [] (some ("ows")) ("WGS84BoundingBox") []
    (some (fmtG minx ++ " " ++ fmtG miny ++ " " ++ fmtG maxx ++ " " ++ fmtG maxy)) []

/-- `msLibXml2GenerateList`: one child per token of the delimited
value. -/
def generateList (pfx : Option String) (tag : String) (value : String)
    (d : Char) : List XElem :=
  (splitCh d value).map (fun t => leaf pfx tag (some t))

/-- The CRS fallback chain shared by CoverageSummary and
CoverageDescription: the layer-level `msOWSGetProjURN` result if
non-NULL, else the map-level one (else NULL with a diagnostic). -/
def crsFallback (layerUrn mapUrn : Option String) : Option String :=
  match layerUrn with
  | some v => some v
  | none => mapUrn

/-- The optional `SupportedCRS` children: generated only when the
fallback chain yields a non-NULL, nonempty URN string. -/
def supportedCRSChildren (layer : LayerObj) (m : MapObj) : List XElem :=
  match crsFallback layer.projUrn m.projUrn with
  | some v => if v.length > 0 then generateList none ("SupportedCRS") v ' ' else []
  | none => []

/-- The optional `SupportedFormat` children: the comma-joined format
list, split back on commas, when nonempty. -/
def supportedFormatChildren (m : MapObj) (layer : LayerObj) : List XElem :=
  let formatList := commaJoin (msWCSGetFormatsList11 m (some layer))
  if formatList.length > 0 then generateList none ("SupportedFormat") formatList ',' else []

/-- The Title value: layer "description" metadata, else the layer
name. -/
def titleValue (layer : LayerObj) : String :=
  (lookupMeta layer.metadata ("description")).getD layer.name

/-- The optional `ows:Keywords` node with one `Keyword` child per
comma-separated token of the "keywordlist" metadata. -/
def keywordsChildren (layer : LayerObj) : List XElem :=
  match lookupMeta layer.metadata ("keywordlist") with
  | none => []
  | some v =>
    [XElem.node [] (some ("ows")) ("Keywords") [] none
      ((splitCh ',' v).map (fun t => leaf none ("Keyword") (some t)))]

/-- The three bounding boxes emitted, in order: pixel/image CRS box,
native CRS box, WGS84 box. -/
def threeBoundingBoxes (cm : CoverageMetadata) : List XElem :=
  [msOWSCommonBoundingBox ("urn:ogc:def:crs:OGC::imageCRS")
     0 0 ((cm.xsize - 1 : ℤ) : ℚ) ((cm.ysize - 1 : ℤ) : ℚ),
   msOWSCommonBoundingBox cm.srsUrn cm.extMinx cm.extMiny cm.extMaxx cm.extMaxy,
   msOWSCommonWGS84BoundingBox cm.llMinx cm.llMiny cm.llMaxx cm.llMaxy]

/-- The `CoverageSummary` node emitted for one layer. -/
def coverageSummaryNode (m : MapObj) (layer : LayerObj) (cm : CoverageMetadata) : XElem :=
  XElem.node [] none ("CoverageSummary") [] none
    ([leaf (some ("ows")) ("Title") (some (titleValue layer)),
      leaf none ("Identifier") (some layer.name)]
     ++ keywordsChildren layer
     ++ threeBoundingBoxes cm
     ++ supportedFormatChildren m layer
     ++ supportedCRSChildren layer m)

/-- `msWCSGetCapabilities11_CoverageSummary`: fails (`MS_FAILURE`, no
node appended) when `msWCSGetCoverageMetadata` fails, else appends the
summary node and succeeds. -/
def msWCSGetCapabilities11_CoverageSummary (m : MapObj) (layer : LayerObj) :
    MsStatus × Option XElem :=
  match layer.cm with
  | none => (MsStatus.failure, none)
  | some cm => (MsStatus.success, some (coverageSummaryNode m layer cm))

/-- A protocol exception as raised through `msWCSException(map, arg2,
arg3, arg4)`: second argument (the version slot), code, locator
(`none` models a NULL argument). -/
structure WcsException : Type where
  versionArg : String
  code : Option String
  locator : Option String
deriving DecidableEq, Repr

/-- The observable outcome of one builder invocation: return status,
the exception raised through `msWCSException` (if any), the chunks the
builder itself wrote to the output stream, the document at the point
of serialization (`none` when never serialized), and how many times
the `params` object was released before returning. -/
structure BuildResult : Type where
  status : MsStatus
  exc : Option WcsException
  output : List String
  doc : Option XElem
  paramsFreed : Nat

/-- The comma-joined list of the names of every WCS-supported layer. -/
def identifierList (m : MapObj) : String :=
  commaJoin ((m.layers.filter (fun l => l.wcsSupported)).map (fun l => l.name))

/-- Modelled from the spec: the external OWSCommonBuilder
`ServiceIdentification` boilerplate fragment. -/
def svcIdentNode : XElem :=
  leaf (some ("ows")) ("ServiceIdentification") none

/-- Modelled from the spec: the external OWSCommonBuilder
`ServiceProvider` boilerplate fragment. -/
def svcProviderNode : XElem :=
  leaf (some ("ows")) ("ServiceProvider") none

/-- Modelled from the spec: one `ows:Parameter` domain-type fragment
(`msOWSCommonOperationsMetadataDomainType`). -/
def domainTypeNode (pname pvalue : String) : XElem :=
  XElem.node [] (some ("ows")) ("Parameter") [(("name"), pname)] (some pvalue) []

/-- Modelled from the spec: one `ows:Operation` fragment
(`msOWSCommonOperationsMetadataOperation`) with its parameter
children. -/
def operationNode (opName url : String) (ps : List XElem) : XElem :=
  XElem.node [] (some ("ows")) ("Operation")
    [(("name"), opName), (("xlink:href"), url)] none ps

/-- The `OperationsMetadata` block with its three operations, exactly
the parameters the source attaches to each. -/
def opsMetadataNode (m : MapObj) (params : WcsParams) (url : String) : XElem :=
  XElem.node [] (some ("ows")) ("OperationsMetadata") [] none
    [operationNode ("GetCapabilities") url
       [domainTypeNode ("service") ("WCS"),
        domainTypeNode ("version") params.version],
     operationNode ("DescribeCoverage") url
       [domainTypeNode ("service") ("WCS"),
        domainTypeNode ("version") params.version,
        domainTypeNode ("identifiers") (identifierList m)],
     operationNode ("GetCoverage") url
       [domainTypeNode ("service") ("WCS"),
        domainTypeNode ("version") params.version,
        domainTypeNode ("Identifier") (identifierList m),
        domainTypeNode ("InterpolationType") ("NEAREST_NEIGHBOUR,BILINEAR"),
        domainTypeNode ("format") (commaJoin (msWCSGetFormatsList11 m none)),
        domainTypeNode ("store") ("false"),
        domainTypeNode ("GridBaseCRS") ("urn:ogc:def:crs:epsg::4326")]]

/-- A simple recursive serializer standing in for the external libxml2
`xmlDocDumpFormatMemoryEnc` (Modelled from the spec: the opaque
document-builder capability; only tags and text are rendered). -/
def serializeElem : XElem → String
  | XElem.node _ _ t _ tx ch =>
    "<" ++ t ++ ">" ++ (tx.getD ("")) ++
      String.join (ch.attach.map (fun c => serializeElem c.val)) ++
      "</" ++ t ++ ">"
termination_by e => sizeOf e
decreasing_by
  have h := List.sizeOf_lt_of_mem c.property
  simp only [XElem.node.sizeOf_spec]
  omega

/-- The chunks written at serialization time: the `Content-type` header
line then the dumped document. -/
def xmlWriteChunks (doc : XElem) : List String :=
  ["Content-type: text/xml\n\n", serializeElem doc]

/-- The Contents-section loop of `msWCSGetCapabilities11`: build one
CoverageSummary per WCS-supported layer, aborting on the first
failure (`none`). -/
def summariesLoop (m : MapObj) : List LayerObj → Option (List XElem)
  | [] => some []
  | l :: rest =>
    if !l.wcsSupported then summariesLoop m rest
    else
      match msWCSGetCapabilities11_CoverageSummary m l with
      | (MsStatus.failure, _) => none
      | (MsStatus.success, optNode) =>
        (summariesLoop m rest).map (fun tail => optNode.toList ++ tail)

/-- `msWCSGetCapabilities11`.  The `binaryStdoutOk` flag models the
`msIO_needBinaryStdout` check at write time. -/
def msWCSGetCapabilities11 (m : MapObj) (params : WcsParams)
    (binaryStdoutOk : Bool) : BuildResult :=
  match m.onlineResourceEncoded with
  | none =>
    { status := MsStatus.failure,
      exc := some ⟨params.version, some ("NoApplicableCode"), some ("NoApplicableCode")⟩,
      output := [], doc := none, paramsFreed := 0 }
  | some url =>
    match summariesLoop m m.layers with
    | none =>
      { status := MsStatus.failure, exc := none, output := [], doc := none,
        paramsFreed := 0 }
    | some summaries =>
      let doc := XElem.node fiveNs none ("Capabilities")
        [(("version"), params.version)] none
        [svcIdentNode, svcProviderNode, opsMetadataNode m params url,
         XElem.node [] none ("Contents") [] none summaries]
      if !binaryStdoutOk then
        { status := MsStatus.failure, exc := none, output := [], doc := none,
          paramsFreed := 0 }
      else
        { status := MsStatus.success, exc := none, output := xmlWriteChunks doc,
          doc := some doc, paramsFreed := 1 }

/-- The `Range/Field` block of a CoverageDescription. -/
def rangeNode (layer : LayerObj) : XElem :=
  XElem.node [] none ("Range") [] none
    [XElem.node [] none ("Field") [] none
      ((match lookupMeta layer.metadata ("rangeset_label") with
        | none => []
        | some v => [leaf (some ("ows")) ("Title") (some v)])
       ++ [leaf none ("Identifier")
             (some ((lookupMeta layer.metadata ("rangeset_name")).getD ("bands"))),
           XElem.node [] none ("InterpolationMethods") [] none
             [leaf none ("DefaultMethod") (some ("nearest neighbour")),
              leaf none ("OtherMethod") (some ("bilinear"))],
           XElem.node [] none ("Axis") [(("identifier"), ("Band"))] none
             [XElem.node [] none ("AvailableKeys") [] none
               (generateList none ("Key") ("1") ',')]])]

/-- The `CoverageDescription` node emitted for one layer. -/
def coverageDescriptionNode (m : MapObj) (layer : LayerObj)
    (cm : CoverageMetadata) : XElem :=
  XElem.node [] none ("CoverageDescription") [] none
    ([leaf (some ("ows")) ("Title") (some (titleValue layer)),
      leaf none ("Identifier") (some layer.name)]
     ++ keywordsChildren layer
     ++ [XElem.node [] none ("Domain") [] none
          [XElem.node [] none ("SpatialDomain") [] none
            (threeBoundingBoxes cm ++ [gridCRSNode cm])]]
     ++ [rangeNode layer]
     ++ supportedCRSChildren layer m
     ++ supportedFormatChildren m layer)

/-- `msWCSDescribeCoverage_CoverageDescription11`: fail (node-less)
when the layer-to-map back-reference is missing; silently succeed
node-less when the layer is not WCS-supported; fail (node-less) when
coverage metadata cannot be computed; else emit the node. -/
def msWCSDescribeCoverage_CoverageDescription11 (m : MapObj) (layer : LayerObj) :
    MsStatus × Option XElem :=
  if !layer.hasMapRef then (MsStatus.failure, none)
  else if !layer.wcsSupported then (MsStatus.success, none)
  else
    match layer.cm with
    | none => (MsStatus.failure, none)
    | some cm => (MsStatus.success, some (coverageDescriptionNode m layer cm))

/-- Modelled from the spec: the external LayerStore resolves a layer by
name (`msGetLayerIndex` then `GET_LAYER`); `none` models index -1. -/
def resolveLayer (m : MapObj) (name : String) : Option LayerObj :=
  m.layers.find? (fun l => l.name = name)

/-- The parameter normalization of `msWCSDescribeCoverage11`: a single
coverage entry is re-split on commas in place of the old list. -/
def normalizeCoverages (cov : Option (List String)) : Option (List String) :=
  match cov with
  | some [s] =>
    let ts := splitCh ',' s
    if ts.isEmpty then none else some ts
  | other => other

/-- The first requested identifier that does not resolve to an existing
layer, if any (the validation loop aborts at the first one). -/
def firstUnresolved (m : MapObj) (cov : Option (List String)) : Option String :=
  match cov with
  | none => none
  | some cs => cs.find? (fun c => (resolveLayer m c).isNone)

/-- The layers the generation loop visits: the resolved requested
coverages when a list was given, else every map layer. -/
def describeTargets (m : MapObj) (cov : Option (List String)) : List LayerObj :=
  match cov with
  | some cs => cs.filterMap (fun c => resolveLayer m c)
  | none => m.layers

/-- `msWCSDescribeCoverage11`. -/
def msWCSDescribeCoverage11 (m : MapObj) (params : WcsParams)
    (binaryStdoutOk : Bool) : BuildResult :=
  let cov := normalizeCoverages params.coverages
  match firstUnresolved m cov with
  | some c =>
    { status := MsStatus.failure,
      exc := some ⟨c, some ("CoverageNotDefined"), some ("coverage")⟩,
      output := [], doc := none, paramsFreed := 0 }
  | none =>
    let targets := describeTargets m cov
    let descNodes := targets.filterMap
      (fun l => (msWCSDescribeCoverage_CoverageDescription11 m l).2)
    let doc := XElem.node fiveNs none ("CoverageDescriptions")
      [(("version"), params.version)] none descNodes
    if !binaryStdoutOk then
      { status := MsStatus.failure, exc := none, output := [], doc := none,
        paramsFreed := 0 }
    else
      { status := MsStatus.success, exc := none, output := xmlWriteChunks doc,
        doc := some doc, paramsFreed := 1 }

/-- The XML manifest of the first MIME part, referencing
`cid:coverage/wcs.<ext>` (verbatim from the `msIO_fprintf` template). -/
def manifestXml (ext : String) : String :=
  "<?xml version=\"1.0\" encoding=\"UTF-8\"?>\n<Coverages\n     xmlns=\"http://www.opengis.net/wcs/1.1\"\n     xmlns:ows=\"http://www.opengis.net/ows\"\n     xmlns:xlink=\"http://www.w3.org/1999/xlink\"\n     xmlns:xsi=\"http://www.w3.org/2001/XMLSchema-instance\"\n     xsi:schemaLocation=\"http://www.opengis.net/ows/1.1 ../owsCoverages.xsd\">\n  <Coverage>\n    <Reference xlink:href=\"cid:coverage/wcs." ++ ext ++ "\"/>\n  </Coverage>\n</Coverages>\n"

/-- The single formatted chunk written by the opening `msIO_fprintf` of
`msWCSReturnCoverage11`: the multipart header, the first boundary and
manifest part, and the second boundary with the image part headers
(the `%c` arguments are the two newlines at each `%c%c`). -/
def wcsCoverageBigChunk (ext mime : String) : String :=
  "Content-Type: multipart/mixed; boundary=wcs\n\n--wcs\nContent-Type: text/xml\nContent-ID: wcs.xml\n\n"
  ++ manifestXml ext
  ++ "--wcs\nContent-Type: " ++ mime
  ++ "\nContent-Description: coverage data\nContent-Transfer-Encoding: binary\nContent-ID: coverage/wcs."
  ++ ext ++ "\nContent-Disposition: INLINE\n\n"

/-- `msWCSReturnCoverage11`: `ext` and `mime` model
`MS_IMAGE_EXTENSION(map->outputformat)` and
`MS_IMAGE_MIME_TYPE(map->outputformat)`; `imageBytes` models the bytes
`msSaveImage` writes to the stream (`none` = `MS_FAILURE`). -/
def msWCSReturnCoverage11 (params : WcsParams) (ext mime : String)
    (imageBytes : Option String) : BuildResult :=
  match imageBytes with
  | none =>
    { status := MsStatus.failure,
      exc := some ⟨params.version, none, none⟩,
      output := [wcsCoverageBigChunk ext mime], doc := none, paramsFreed := 0 }
  | some bytes =>
    { status := MsStatus.success, exc := none,
      output := [wcsCoverageBigChunk ext mime, bytes, "--wcs--\n\n"],
      doc := none, paramsFreed := 0 }

/-- Modelled from the spec: one MIME part, its header block (each
header line newline-terminated) and its body. -/
structure MimePart : Type where
  headers : String
  body : String

/-- Modelled from the spec: one part of a multipart stream — opening
boundary line, header block, blank line, body. -/
def renderPart (b : String) (p : MimePart) : String :=
  "--" ++ b ++ "\n" ++ p.headers ++ "\n" ++ p.body

/-- Modelled from the spec: a `multipart/mixed` stream with boundary
token `b`, terminated by a closing `--b--` line. -/
def renderMultipart (b : String) (parts : List MimePart) : String :=
  String.join (parts.map (renderPart b)) ++ ("--" ++ b ++ "--\n\n")

/-- The XML manifest part of a coverage response. -/
def manifestPart (ext : String) : MimePart :=
  { headers := "Content-Type: text/xml\nContent-ID: wcs.xml\n",
    body := manifestXml ext }

/-- The encoded-image part of a coverage response. -/
def imagePart (mime ext bytes : String) : MimePart :=
  { headers := "Content-Type: " ++ mime
      ++ "\nContent-Description: coverage data\nContent-Transfer-Encoding: binary\nContent-ID: coverage/wcs."
      ++ ext ++ "\nContent-Disposition: INLINE\n",
    body := bytes }

/-- Three configured raster formats whose MIME types are
`image/tiff`, `Image/Tiff`, `image/png` (the worked example of the
format-deduplication property). -/
def tiffPngFormats : List OutputFormat :=
  [{ name := ("f1"), renderer := RendererKind.gd, mimetype := some ("image/tiff") },
   { name := ("f2"), renderer := RendererKind.agg, mimetype := some ("Image/Tiff") },
   { name := ("f3"), renderer := RendererKind.rawdata, mimetype := some ("image/png") }]

/-- A layer-less map configured with `tiffPngFormats`. -/
def tiffPngMap : MapObj :=
  { layers := [], outputformats := tiffPngFormats, projUrn := none,
    onlineResourceEncoded := some ("http://example/wcs?") }

/-- Coverage metadata with geotransform `(100, 30, 0, 200, 0, -30)`
(the worked example of the GridCRS property). -/
def cmGeoExample : CoverageMetadata :=
  { xsize := 10, ysize := 10, extMinx := 100, extMiny := 100, extMaxx := 400,
    extMaxy := 200, llMinx := 0, llMiny := 0, llMaxx := 1, llMaxy := 1,
    gt0 := 100, gt1 := 30, gt2 := 0, gt3 := 200, gt4 := 0, gt5 := -30,
    srsUrn := ("urn:ogc:def:crs:EPSG::32611") }

/-- A WCS-supported layer whose name contains an embedded comma. -/
def layerCommaName : LayerObj :=
  { name := ("p,q"), metadata := [], projUrn := some ("urn:ogc:def:crs:EPSG::32611"),
    wcsSupported := true, hasMapRef := true, cm := some cmGeoExample }

/-- A plain WCS-supported layer named `r`. -/
def layerR : LayerObj :=
  { name := ("r"), metadata := [], projUrn := none, wcsSupported := true,
    hasMapRef := true, cm := some cmGeoExample }

/-- A WCS-supported layer whose coverage-metadata resolution fails. -/
def layerBroken : LayerObj :=
  { name := ("broken"), metadata := [], projUrn := none, wcsSupported := true,
    hasMapRef := true, cm := none }

/-- A map holding the comma-named layer and `r` (fixture for the
comma-join normalization claims). -/
def mapCommaExample : MapObj :=
  { layers := [layerCommaName, layerR], outputformats := tiffPngFormats,
    projUrn := none, onlineResourceEncoded := some ("http://example/wcs?") }

/-- A map whose service base URL is unavailable (fixture for the
early-abort leak path). -/
def mapNoUrl : MapObj :=
  { layers := [], outputformats := [], projUrn := none,
    onlineResourceEncoded := none }

/-- A map with one broken and one healthy WCS layer (fixture for the
per-layer failure claims). -/
def mapBrokenLayer : MapObj :=
  { layers := [layerBroken, layerR], outputformats := tiffPngFormats,
    projUrn := some ("urn:ogc:def:crs:EPSG::4326"),
    onlineResourceEncoded := some ("http://example/wcs?") }

/-- Request parameters with no coverage list. -/
def paramsAll : WcsParams :=
  { version := ("1.1.0"), coverages := none }

/-- A WCS-supported layer with no layer-level CRS resolution. -/
def layerNoCrs : LayerObj :=
  { name := ("nocrs"), metadata := [], projUrn := none, wcsSupported := true,
    hasMapRef := true, cm := some cmGeoExample }

/-- A map with no server-level CRS resolution either. -/
def mapNoCrs : MapObj :=
  { layers := [layerNoCrs], outputformats := tiffPngFormats, projUrn := none,
    onlineResourceEncoded := some ("http://example/wcs?") }

/-- The capabilities document produced for `tiffPngMap` (used to
exhibit the namespace/version invariant on a concrete document). -/
def capDocExample : XElem :=
  (msWCSGetCapabilities11 tiffPngMap paramsAll true).doc.getD (leaf none ("x") none)

/-- The coverage-descriptions document produced for `mapCommaExample`
with no coverage list. -/
def descDocExample : XElem :=
  (msWCSDescribeCoverage11 mapCommaExample paramsAll true).doc.getD (leaf none ("x") none)


set_option maxRecDepth 8000

/-- Appending strings appends their character data. -/
theorem sdata_append (a b : String) : (a ++ b).data = a.data ++ b.data := rfl

/-- Rebuilding a string from its character data is the identity. -/
theorem str_mk_data (s : String) : String.mk s.data = s := by
  cases s
  rfl

/-- A string with empty character data is the empty string. -/
theorem str_of_data_nil (s : String) (h : s.data = []) : s = ("") := by
  cases s
  simp only at h
  rw [h]

/-- Case-insensitive equality is symmetric. -/
theorem strcaseeq_comm (a b : String) : strcaseeq a b = strcaseeq b a := by
  unfold strcaseeq
  cases h1 : (a.data.map lowerChar == b.data.map lowerChar) <;>
    cases h2 : (b.data.map lowerChar == a.data.map lowerChar) <;> simp_all

/-- The token-resolution loop is the dedup loop run over the candidate
MIME sequence. -/
theorem formatsLoop_eq_dedupLoop (fmts : List OutputFormat) :
    ∀ (tokens acc : List String),
      formatsLoop fmts tokens acc = dedupLoop (fmtCandidates fmts tokens) acc := by
  intro tokens
  induction tokens with
  | nil => intro acc; rfl
  | cons tok rest ih =>
    intro acc
    show formatsLoop fmts (tok :: rest) acc
      = dedupLoop (fmtCandidates fmts (tok :: rest)) acc
    cases hf : findFormatByName fmts tok with
    | none =>
      simp only [formatsLoop, fmtCandidates, List.filterMap_cons, hf]
      exact ih acc
    | some f =>
      cases hm : f.mimetype with
      | none =>
        simp only [formatsLoop, fmtCandidates, List.filterMap_cons, hf, hm]
        exact ih acc
      | some mt =>
        by_cases hlen : mt.length = 0
        · simp only [formatsLoop, fmtCandidates, List.filterMap_cons, hf, hm,
            if_pos hlen]
          exact ih acc
        · simp only [formatsLoop, fmtCandidates, List.filterMap_cons, hf, hm,
            if_neg hlen, dedupLoop]
          cases hany : acc.any (fun x => strcaseeq mt x) with
          | true => exact ih acc
          | false => exact ih (acc ++ [mt])

/-- The dedup loop with accumulator `acc` appends to `acc` the
first-seen deduplication of the candidates not already represented in
`acc`. -/
theorem dedupLoop_eq (l : List String) :
    ∀ acc : List String,
      dedupLoop l acc
        = acc ++ dedupCI (l.filter (fun x => !(acc.any (fun a => strcaseeq x a)))) := by
  induction l with
  | nil => intro acc; simp [dedupLoop, dedupCI]
  | cons m rest ih =>
    intro acc
    rw [dedupLoop]
    cases hany : acc.any (fun a => strcaseeq m a) with
    | true =>
      rw [ih acc, List.filter_cons]
      simp [hany]
    | false =>
      rw [ih (acc ++ [m]), List.filter_cons]
      simp only [hany, Bool.not_false, if_pos]
      rw [dedupCI]
      have hpred : rest.filter (fun x => !((acc ++ [m]).any (fun a => strcaseeq x a)))
          = (rest.filter (fun x => !(acc.any (fun a => strcaseeq x a)))).filter
              (fun x => !(strcaseeq x m)) := by
        rw [List.filter_filter]
        apply List.filter_congr
        intro x _
        rw [List.any_append]
        simp [Bool.not_or, Bool.and_comm]
      rw [hpred]
      simp [List.append_assoc]

/-- Every element of the deduplicated list occurs in the input. -/
theorem mem_dedupCI (x : String) :
    ∀ (n : Nat) (l : List String), l.length ≤ n → x ∈ dedupCI l → x ∈ l := by
  intro n
  induction n with
  | zero =>
    intro l hl hx
    rw [List.length_eq_zero.mp (Nat.le_zero.mp hl)] at hx ⊢
    simp [dedupCI] at hx
  | succ n ih =>
    intro l hl hx
    cases l with
    | nil => simp [dedupCI] at hx
    | cons m rest =>
      rw [dedupCI] at hx
      rcases List.mem_cons.mp hx with he | ht
      · exact he ▸ List.mem_cons_self _ _
      · have hlen : (rest.filter (fun y => !(strcaseeq y m))).length ≤ n :=
          Nat.le_trans (List.length_filter_le _ _)
            (Nat.le_of_succ_le_succ hl)
        have := ih _ hlen ht
        exact List.mem_cons_of_mem _ (List.mem_of_mem_filter this)

/-- The deduplicated list holds no two entries that are equal up to
case. -/
theorem dedupCI_pairwise :
    ∀ (n : Nat) (l : List String), l.length ≤ n →
      (dedupCI l).Pairwise (fun a b => strcaseeq a b = false) := by
  intro n
  induction n with
  | zero =>
    intro l hl
    rw [List.length_eq_zero.mp (Nat.le_zero.mp hl)]
    simp [dedupCI]
  | succ n ih =>
    intro l hl
    cases l with
    | nil => simp [dedupCI]
    | cons m rest =>
      rw [dedupCI]
      have hlen : (rest.filter (fun y => !(strcaseeq y m))).length ≤ n :=
        Nat.le_trans (List.length_filter_le _ _) (Nat.le_of_succ_le_succ hl)
      refine List.Pairwise.cons ?_ (ih _ hlen)
      intro x hx
      have hxf := mem_dedupCI x _ _ (Nat.le_refl _) hx
      have := List.of_mem_filter hxf
      rw [strcaseeq_comm]
      simpa using this

/-- C3: for every server configuration and every input name list, the
resolved format list of `msWCSGetFormatsList11` is exactly the
first-seen case-insensitive deduplication of the candidate MIME
sequence (tokens with no case-insensitive descriptor match or an
empty/NULL MIME type dropped without error), hence contains no two
entries equal up to case; in particular the configured MIME types
`image/tiff`, `Image/Tiff`, `image/png` resolve to
`[image/tiff, image/png]`. -/
theorem formats_list_dedup_correct :
    (∀ (m : MapObj) (layer : Option LayerObj),
       msWCSGetFormatsList11 m layer
           = dedupCI (fmtCandidates m.outputformats (formatsTokens m layer))
         ∧ (msWCSGetFormatsList11 m layer).Pairwise
             (fun a b => strcaseeq a b = false))
    ∧ msWCSGetFormatsList11 tiffPngMap none = [("image/tiff"), ("image/png")] := by
  constructor
  · intro m layer
    have h1 : msWCSGetFormatsList11 m layer
        = dedupCI (fmtCandidates m.outputformats (formatsTokens m layer)) := by
      unfold msWCSGetFormatsList11
      rw [formatsLoop_eq_dedupLoop, dedupLoop_eq]
      simp
    refine ⟨h1, ?_⟩
    rw [h1]
    exact dedupCI_pairwise _ _ (Nat.le_refl _)
  · decide

/-- Splitting character data free of the delimiter yields a single
token. -/
theorem splitChAux_no_delim (d : Char) :
    ∀ (xs acc : List Char), d ∉ xs →
      splitChAux d xs acc = [acc.reverse ++ xs] := by
  intro xs
  induction xs with
  | nil => intro acc _; simp [splitChAux]
  | cons c rest ih =>
    intro acc h
    have hc : ¬(c = d) := fun he => h (he ▸ List.mem_cons_self c rest)
    rw [splitChAux, if_neg hc, ih (c :: acc) (fun hm => h (List.mem_cons_of_mem _ hm))]
    simp

/-- Splitting character data that opens with a delimiter-free run
followed by a delimiter peels off that run as one token. -/
theorem splitChAux_with_delim (d : Char) (ys : List Char) :
    ∀ (xs acc : List Char), d ∉ xs →
      splitChAux d (xs ++ d :: ys) acc
        = (acc.reverse ++ xs) :: splitChAux d ys [] := by
  intro xs
  induction xs with
  | nil =>
    intro acc _
    simp [splitChAux]
  | cons c rest ih =>
    intro acc h
    have hc : ¬(c = d) := fun he => h (he ▸ List.mem_cons_self c rest)
    rw [List.cons_append, splitChAux, if_neg hc,
      ih (c :: acc) (fun hm => h (List.mem_cons_of_mem _ hm))]
    simp

/-- Splitting the comma-join of three nonempty comma-free identifiers
recovers the three identifiers. -/
theorem splitCh_join3 (x y z : String) (hx : x ≠ ("")) (hy : y ≠ ("")) (hz : z ≠ (""))
    (nx : (',') ∉ x.data) (ny : (',') ∉ y.data) (nz : (',') ∉ z.data) :
    splitCh ',' (x ++ (",") ++ y ++ (",") ++ z) = [x, y, z] := by
  have hdata : (x ++ (",") ++ y ++ (",") ++ z).data
      = x.data ++ (',') :: (y.data ++ (',') :: z.data) := by
    simp [sdata_append]
  unfold splitCh
  rw [hdata, splitChAux_with_delim _ _ _ _ nx,
    splitChAux_with_delim _ _ _ _ ny, splitChAux_no_delim _ _ _ nz]
  have dx : ¬(x.data = []) := fun h => hx (str_of_data_nil x h)
  have dy : ¬(y.data = []) := fun h => hy (str_of_data_nil y h)
  have dz : ¬(z.data = []) := fun h => hz (str_of_data_nil z h)
  simp [dx, dy, dz, str_mk_data]

/-- Two requests whose coverage lists normalize identically behave
identically. -/
theorem describe_eq_of_normalize_eq (m : MapObj) (v : String) (b : Bool)
    (c1 c2 : Option (List String))
    (h : normalizeCoverages c1 = normalizeCoverages c2) :
    msWCSDescribeCoverage11 m { version := v, coverages := c1 } b
      = msWCSDescribeCoverage11 m { version := v, coverages := c2 } b := by
  simp only [msWCSDescribeCoverage11, h]

/-- C4 (amended): a `DescribeCoverage` request supplied as the single
comma-joined coverage parameter value behaves exactly as the same
request supplied as three repeated parameters, provided each
identifier is nonempty and contains no comma (the counterexample shows
the unrestricted claim fails for identifiers that embed the
separator). -/
theorem describeCoverage_comma_join_equiv (m : MapObj) (v : String) (b : Bool)
    (x y z : String) (hx : x ≠ ("")) (hy : y ≠ ("")) (hz : z ≠ (""))
    (nx : (',') ∉ x.data) (ny : (',') ∉ y.data) (nz : (',') ∉ z.data) :
    msWCSDescribeCoverage11 m
        { version := v, coverages := some [x ++ (",") ++ y ++ (",") ++ z] } b
      = msWCSDescribeCoverage11 m { version := v, coverages := some [x, y, z] } b := by
  apply describe_eq_of_normalize_eq
  have h1 : normalizeCoverages (some [x ++ (",") ++ y ++ (",") ++ z])
      = some [x, y, z] := by
    simp only [normalizeCoverages]
    rw [splitCh_join3 x y z hx hy hz nx ny nz]
    rfl
  rw [h1]
  rfl

/-- Witness for C4 (amended): a concrete instance of the comma-join
equivalence at identifiers `a`, `b`, `c`. -/
theorem describeCoverage_comma_join_equiv_witness :
    msWCSDescribeCoverage11 mapCommaExample
        { version := ("1.1.0"),
          coverages := some [("a") ++ (",") ++ ("b") ++ (",") ++ ("c")] } true
      = msWCSDescribeCoverage11 mapCommaExample
          { version := ("1.1.0"), coverages := some [("a"), ("b"), ("c")] } true :=
  describeCoverage_comma_join_equiv mapCommaExample ("1.1.0") true ("a") ("b") ("c")
    (by decide) (by decide) (by decide) (by decide) (by decide) (by decide)

/-- Counterexample for C4 as frozen: with a layer literally named
`p,q`, the single comma-joined parameter `p,q,r,r` is re-split into
four identifiers and fails validation, while the repeated parameters
`p,q` / `r` / `r` validate and succeed, so the two requests do not
produce the same result. -/
theorem describeCoverage_comma_join_counterexample :
    msWCSDescribeCoverage11 mapCommaExample
        { version := ("1.1.0"), coverages := some [("p,q,r,r")] } true
      ≠ msWCSDescribeCoverage11 mapCommaExample
          { version := ("1.1.0"), coverages := some [("p,q"), ("r"), ("r")] } true :=
  fun h => absurd (congrArg BuildResult.exc h) (by decide)

/-- C1: when the normalized identifier list contains a name that does
not resolve to an existing layer, `msWCSDescribeCoverage11` fails with
a `CoverageNotDefined` exception carrying the first unresolved
identifier, writes nothing, serializes no document (hence zero
`CoverageDescription` nodes), and releases nothing. -/
theorem describeCoverage_unknown_identifier (m : MapObj) (params : WcsParams)
    (b : Bool) (c : String)
    (h : firstUnresolved m (normalizeCoverages params.coverages) = some c) :
    msWCSDescribeCoverage11 m params b
      = { status := MsStatus.failure,
          exc := some ⟨c, some ("CoverageNotDefined"), some ("coverage")⟩,
          output := [], doc := none, paramsFreed := 0 } := by
  simp only [msWCSDescribeCoverage11, h]

/-- Witness for C1: requesting the unknown identifier `zzz` fails with
`CoverageNotDefined` naming `zzz` and produces no output. -/
theorem describeCoverage_unknown_identifier_witness :
    firstUnresolved mapCommaExample
        (normalizeCoverages (some [("zzz")])) = some ("zzz")
      ∧ msWCSDescribeCoverage11 mapCommaExample
          { version := ("1.1.0"), coverages := some [("zzz")] } true
        = { status := MsStatus.failure,
            exc := some ⟨("zzz"), some ("CoverageNotDefined"), some ("coverage")⟩,
            output := [], doc := none, paramsFreed := 0 } :=
  ⟨by decide,
   describeCoverage_unknown_identifier mapCommaExample
     { version := ("1.1.0"), coverages := some [("zzz")] } true ("zzz") (by decide)⟩

/-- The Contents loop aborts (yields `none`) whenever some
WCS-supported layer has no resolvable coverage metadata. -/
theorem summariesLoop_none (m : MapObj) :
    ∀ (ls : List LayerObj) (l : LayerObj), l ∈ ls → l.wcsSupported = true →
      l.cm = none → summariesLoop m ls = none := by
  intro ls
  induction ls with
  | nil => intro l h; cases h
  | cons hd tl ih =>
    intro l hmem hsup hcm
    rcases List.mem_cons.mp hmem with he | ht
    · subst he
      simp [summariesLoop, hsup, msWCSGetCapabilities11_CoverageSummary, hcm]
    · have hn := ih l ht hsup hcm
      cases hsup2 : hd.wcsSupported with
      | false => simp [summariesLoop, hsup2, hn]
      | true =>
        cases hcm2 : hd.cm with
        | none =>
          simp [summariesLoop, hsup2, msWCSGetCapabilities11_CoverageSummary, hcm2]
        | some cmv =>
          simp [summariesLoop, hsup2, msWCSGetCapabilities11_CoverageSummary,
            hcm2, hn]

/-- C2: if CoverageSummary construction fails for any WCS-supported
layer (its coverage metadata cannot be computed), the whole
`GetCapabilities` build returns failure, writes nothing, and serializes
no document — no partial-layer results are emitted. -/
theorem getCapabilities_abort_on_summary_failure (m : MapObj) (params : WcsParams)
    (b : Bool) (l : LayerObj) (hmem : l ∈ m.layers) (hsup : l.wcsSupported = true)
    (hcm : l.cm = none) :
    (msWCSGetCapabilities11 m params b).status = MsStatus.failure
    ∧ (msWCSGetCapabilities11 m params b).output = []
    ∧ (msWCSGetCapabilities11 m params b).doc = none := by
  have hs := summariesLoop_none m m.layers l hmem hsup hcm
  cases ho : m.onlineResourceEncoded with
  | none => simp [msWCSGetCapabilities11, ho]
  | some url => simp [msWCSGetCapabilities11, ho, hs]

/-- Witness for C2: the map holding the broken layer aborts with
failure and empty output. -/
theorem getCapabilities_abort_on_summary_failure_witness :
    (msWCSGetCapabilities11 mapBrokenLayer paramsAll true).status = MsStatus.failure
    ∧ (msWCSGetCapabilities11 mapBrokenLayer paramsAll true).output = []
    ∧ (msWCSGetCapabilities11 mapBrokenLayer paramsAll true).doc = none :=
  getCapabilities_abort_on_summary_failure mapBrokenLayer paramsAll true
    layerBroken (by decide) (by decide) (by decide)

/-- C5: the GridCRS block of every emitted CoverageDescription carries
`GridOrigin` equal to `(gt0 + gt1/2 + gt2/2, gt3 + gt4/2 + gt5/2)` and
`GridOffsets` equal to `(gt1, gt5)`; in particular the geotransform
`(100, 30, 0, 200, 0, -30)` yields `GridOrigin` text `115 185` and
`GridOffsets` text `30 -30`. -/
theorem gridCRS_origin_and_offsets (m : MapObj) (layer : LayerObj)
    (cm : CoverageMetadata) :
    ((gridCRSNode cm).children.map XElem.text)
        = [some cm.srsUrn,
           some ("urn:ogc:def:method:WCS:1.1:2dSimpleGrid"),
           some (fmtPair (gridOriginPair cm)),
           some (fmtPair (gridOffsetsPair cm)),
           some ("urn:ogc:def:cs:OGC:0.0:Grid2dSquareCS")]
    ∧ gridOriginPair cm
        = (cm.gt0 + cm.gt1 / 2 + cm.gt2 / 2, cm.gt3 + cm.gt4 / 2 + cm.gt5 / 2)
    ∧ gridOffsetsPair cm = (cm.gt1, cm.gt5)
    ∧ (XElem.node [] none ("Domain") [] none
        [XElem.node [] none ("SpatialDomain") [] none
          (threeBoundingBoxes cm ++ [gridCRSNode cm])])
        ∈ (coverageDescriptionNode m layer cm).children
    ∧ fmtPair (gridOriginPair cmGeoExample) = ("115 185")
    ∧ fmtPair (gridOffsetsPair cmGeoExample) = ("30 -30") := by
  refine ⟨rfl, rfl, rfl, ?_, ?_, by decide⟩
  · simp [coverageDescriptionNode, XElem.children, List.mem_cons, List.mem_append]
  · norm_num [gridOriginPair, cmGeoExample, fmtPair, fmtG]
    decide

/-- C6 (code bug): the `RequestParams` object is not released on every
exit path.  On the early abort for a missing service base URL,
`msWCSGetCapabilities11` raises `NoApplicableCode` and returns without
releasing the params object (release count 0, against the contract of
exactly once, honored on the success path); the `CoverageNotDefined`
abort of `msWCSDescribeCoverage11` leaks it likewise. -/
theorem params_not_released_on_early_abort :
    (msWCSGetCapabilities11 mapNoUrl paramsAll true).paramsFreed = 0
    ∧ (msWCSGetCapabilities11 mapNoUrl paramsAll true).exc
        = some ⟨("1.1.0"), some ("NoApplicableCode"), some ("NoApplicableCode")⟩
    ∧ (msWCSGetCapabilities11 tiffPngMap paramsAll true).paramsFreed = 1
    ∧ (msWCSDescribeCoverage11 mapCommaExample
        { version := ("1.1.0"), coverages := some [("zzz")] } true).paramsFreed = 0
    ∧ (msWCSDescribeCoverage11 mapCommaExample paramsAll true).paramsFreed = 1 := by
  refine ⟨rfl, rfl, ?_, ?_, ?_⟩ <;> decide

/-- C7: CRS resolution uses the layer-level result whenever it is
non-NULL and consults the server level only otherwise; when both levels
resolve to nothing the `SupportedCRS` children are simply omitted and
summary construction still succeeds. -/
theorem crs_resolution_fallback :
    (∀ (v : String) (mp : Option String), crsFallback (some v) mp = some v)
    ∧ (∀ mp : Option String, crsFallback none mp = mp)
    ∧ (∀ (m : MapObj) (layer : LayerObj), layer.projUrn = none → m.projUrn = none →
        supportedCRSChildren layer m = [])
    ∧ (∀ (m : MapObj) (layer : LayerObj) (cm : CoverageMetadata),
        layer.cm = some cm →
        msWCSGetCapabilities11_CoverageSummary m layer
          = (MsStatus.success, some (coverageSummaryNode m layer cm))) := by
  refine ⟨fun v mp => rfl, fun mp => rfl, ?_, ?_⟩
  · intro m layer hl hm
    simp [supportedCRSChildren, crsFallback, hl, hm]
  · intro m layer cm hcm
    simp [msWCSGetCapabilities11_CoverageSummary, hcm]

/-- Witness for C7: the layer and map with no CRS resolution at either
level produce no `SupportedCRS` children, and its summary still
succeeds. -/
theorem crs_resolution_fallback_witness :
    supportedCRSChildren layerNoCrs mapNoCrs = []
    ∧ msWCSGetCapabilities11_CoverageSummary mapNoCrs layerNoCrs
        = (MsStatus.success, some (coverageSummaryNode mapNoCrs layerNoCrs cmGeoExample)) :=
  ⟨crs_resolution_fallback.2.2.1 mapNoCrs layerNoCrs rfl rfl,
   crs_resolution_fallback.2.2.2 mapNoCrs layerNoCrs cmGeoExample rfl⟩

/-- C8: a successful `msWCSReturnCoverage11` returns success and its
written stream is exactly the `multipart/mixed` header with boundary
token `wcs` followed by a two-part multipart body — the XML manifest
part referencing `cid:coverage/wcs.<ext>`, then the image part with
the format MIME type — opening each part with a `--wcs` line and
terminated by the closing `--wcs--` line. -/
theorem returnCoverage_two_part_multipart (params : WcsParams)
    (ext mime bytes : String) :
    (msWCSReturnCoverage11 params ext mime (some bytes)).status = MsStatus.success
    ∧ String.join (msWCSReturnCoverage11 params ext mime (some bytes)).output
        = ("Content-Type: multipart/mixed; boundary=wcs\n\n")
            ++ renderMultipart ("wcs") [manifestPart ext, imagePart mime ext bytes]
    ∧ (msWCSReturnCoverage11 params ext mime (some bytes)).output.getLast?
        = some ("--wcs--\n\n")
    ∧ [manifestPart ext, imagePart mime ext bytes].length = 2 := by
  refine ⟨rfl, ?_, rfl, rfl⟩
  apply String.ext
  simp only [msWCSReturnCoverage11, wcsCoverageBigChunk, manifestXml,
    renderMultipart, renderPart, manifestPart, imagePart, String.join,
    List.map_cons, List.map_nil, List.foldl_cons, List.foldl_nil, sdata_append,
    List.append_assoc]
  rfl

/-- C9: every serialized document of both builders carries exactly the
five namespace bindings (default WCS 1.1, `ows`, `xlink`, `xsi`,
`ogc`) on its root and a `version` attribute equal to the request
version. -/
theorem documents_five_namespaces_and_version :
    (∀ (m : MapObj) (params : WcsParams) (b : Bool) (d : XElem),
        (msWCSGetCapabilities11 m params b).doc = some d →
        d.nsDecls = fiveNs ∧ d.attrs = [(("version"), params.version)])
    ∧ (∀ (m : MapObj) (params : WcsParams) (b : Bool) (d : XElem),
        (msWCSDescribeCoverage11 m params b).doc = some d →
        d.nsDecls = fiveNs ∧ d.attrs = [(("version"), params.version)])
    ∧ fiveNs.length = 5 := by
  refine ⟨?_, ?_, rfl⟩
  · intro m params b d h
    cases ho : m.onlineResourceEncoded with
    | none => simp [msWCSGetCapabilities11, ho] at h
    | some url =>
      cases hs : summariesLoop m m.layers with
      | none => simp [msWCSGetCapabilities11, ho, hs] at h
      | some summaries =>
        cases b with
        | false => simp [msWCSGetCapabilities11, ho, hs] at h
        | true =>
          simp [msWCSGetCapabilities11, ho, hs] at h
          rw [← h]
          exact ⟨rfl, rfl⟩
  · intro m params b d h
    cases hfu : firstUnresolved m (normalizeCoverages params.coverages) with
    | some c => simp [msWCSDescribeCoverage11, hfu] at h
    | none =>
      cases b with
      | false => simp [msWCSDescribeCoverage11, hfu] at h
      | true =>
        simp [msWCSDescribeCoverage11, hfu] at h
        rw [← h]
        exact ⟨rfl, rfl⟩

/-- Witness for C9: the concrete capabilities and coverage-descriptions
documents both carry the five bindings and the request version. -/
theorem documents_five_namespaces_and_version_witness :
    capDocExample.nsDecls = fiveNs
    ∧ capDocExample.attrs = [(("version"), ("1.1.0"))]
    ∧ descDocExample.nsDecls = fiveNs
    ∧ descDocExample.attrs = [(("version"), ("1.1.0"))] :=
  let h1 := documents_five_namespaces_and_version.1 tiffPngMap paramsAll true
    capDocExample rfl
  let h2 := documents_five_namespaces_and_version.2.1 mapCommaExample paramsAll true
    descDocExample rfl
  ⟨h1.1, h1.2, h2.1, h2.2⟩

/-- A per-layer CoverageDescription failure is detected before the node
is created, so a failing layer contributes no node at all. -/
theorem perLayer_failure_no_node (m : MapObj) (l : LayerObj)
    (h : (msWCSDescribeCoverage_CoverageDescription11 m l).1 = MsStatus.failure) :
    (msWCSDescribeCoverage_CoverageDescription11 m l).2 = none := by
  unfold msWCSDescribeCoverage_CoverageDescription11 at h ⊢
  cases hr : l.hasMapRef <;> cases hs : l.wcsSupported <;> cases hc : l.cm <;>
    simp_all

/-- C10: in `DescribeCoverage` a per-layer failure (missing map
back-reference or failed coverage-metadata resolution) does not abort
the build: the failing layer contributes no node, the per-layer status
is ignored, the remaining target layers are still processed, and the
document is serialized and written as a success — unlike
`GetCapabilities`, which fails outright on the analogous per-layer
metadata failure. -/
theorem describeCoverage_tolerates_per_layer_failure (m : MapObj)
    (params : WcsParams) (lf : LayerObj)
    (hval : firstUnresolved m (normalizeCoverages params.coverages) = none)
    (_hmem : lf ∈ describeTargets m (normalizeCoverages params.coverages))
    (hfail : (msWCSDescribeCoverage_CoverageDescription11 m lf).1 = MsStatus.failure) :
    (msWCSDescribeCoverage11 m params true).status = MsStatus.success
    ∧ (msWCSDescribeCoverage11 m params true).exc = none
    ∧ (msWCSDescribeCoverage11 m params true).doc
        = some (XElem.node fiveNs none ("CoverageDescriptions")
            [(("version"), params.version)] none
            ((describeTargets m (normalizeCoverages params.coverages)).filterMap
              (fun l => (msWCSDescribeCoverage_CoverageDescription11 m l).2)))
    ∧ (msWCSDescribeCoverage11 m params true).output
        = xmlWriteChunks (XElem.node fiveNs none ("CoverageDescriptions")
            [(("version"), params.version)] none
            ((describeTargets m (normalizeCoverages params.coverages)).filterMap
              (fun l => (msWCSDescribeCoverage_CoverageDescription11 m l).2)))
    ∧ (msWCSDescribeCoverage_CoverageDescription11 m lf).2 = none
    ∧ (∀ (m2 : MapObj) (p2 : WcsParams) (b2 : Bool) (l2 : LayerObj),
        l2 ∈ m2.layers → l2.wcsSupported = true → l2.cm = none →
        (msWCSGetCapabilities11 m2 p2 b2).status = MsStatus.failure) := by
  refine ⟨?_, ?_, ?_, ?_, perLayer_failure_no_node m lf hfail, ?_⟩
  · simp [msWCSDescribeCoverage11, hval]
  · simp [msWCSDescribeCoverage11, hval]
  · simp [msWCSDescribeCoverage11, hval]
  · simp [msWCSDescribeCoverage11, hval]
  · intro m2 p2 b2 l2 h1 h2 h3
    have hs := summariesLoop_none m2 m2.layers l2 h1 h2 h3
    cases ho : m2.onlineResourceEncoded with
    | none => simp [msWCSGetCapabilities11, ho]
    | some url => simp [msWCSGetCapabilities11, ho, hs]

/-- Witness for C10: the map with the broken layer still succeeds in
`DescribeCoverage`, with the broken layer contributing no node. -/
theorem describeCoverage_tolerates_per_layer_failure_witness :
    (msWCSDescribeCoverage11 mapBrokenLayer paramsAll true).status = MsStatus.success
    ∧ (msWCSDescribeCoverage11 mapBrokenLayer paramsAll true).exc = none
    ∧ (msWCSDescribeCoverage_CoverageDescription11 mapBrokenLayer layerBroken).2
        = none :=
  let h := describeCoverage_tolerates_per_layer_failure mapBrokenLayer paramsAll
    layerBroken (by decide) (by decide) (by decide)
  ⟨h.1, h.2.1, h.2.2.2.2.1⟩

end MapWcs11
